import Mathlib

/-
Verification of the zprocess lock server (src/zprocess/locking/server.py)
against its natural-language specification.

The Python source is shallowly embedded: every class becomes a structure,
every method a pure function that threads the mutated state explicitly.
Python exceptions are modelled with `Except`-style sums; Python `float`
values with an exact-rational model carrying the special values nan / inf
(rounding never matters for the properties analysed here, only the
special-value comparison semantics).  Python `set`s are modelled as
duplicate-free lists whose head plays the role of the arbitrary element
returned by `set.pop()`; Python `dict`s as insertion-ordered association
lists.
-/

set_option maxHeartbeats 1000000

namespace ZLock

/-- Model of a CPython float as used by the server: an exact rational for
finite values, plus the special values inf, -inf and nan. -/
inductive PFloat where
  | finite (q : ℚ)
  | inf
  | neginf
  | nan
deriving DecidableEq

/-- Python float addition (`monotonic() + due_in`): nan is absorbing and
inf + (-inf) is nan. -/
def PFloat.add : PFloat → PFloat → PFloat
  | .nan, _ => .nan
  | _, .nan => .nan
  | .inf, .neginf => .nan
  | .neginf, .inf => .nan
  | .inf, _ => .inf
  | _, .inf => .inf
  | .neginf, _ => .neginf
  | _, .neginf => .neginf
  | .finite a, .finite b => .finite (a + b)

/-- Python float `<`: every comparison involving nan is False. -/
def PFloat.ltB : PFloat → PFloat → Bool
  | .nan, _ => false
  | _, .nan => false
  | .neginf, .neginf => false
  | .neginf, _ => true
  | _, .neginf => false
  | .inf, _ => false
  | _, .inf => true
  | .finite a, .finite b => decide (a < b)

/-- Python float `>` (used in `monotonic() + timeout > self.timeout_task.due_at`). -/
def PFloat.gtB (a b : PFloat) : Bool := PFloat.ltB b a

/-- Python float unary minus, used when parsing a leading sign. -/
def PFloat.neg : PFloat → PFloat
  | .finite q => .finite (-q)
  | .inf => .neginf
  | .neginf => .inf
  | .nan => .nan

/-- Python float `==`: nan compares unequal to everything, including nan. -/
def pyEqB : PFloat → PFloat → Bool
  | .inf, .inf => true
  | .neginf, .neginf => true
  | .finite a, .finite b => decide (a = b)
  | _, _ => false

/-- Membership test `timeout in INVALID_NUMBERS` from line 502 of the source,
where `INVALID_NUMBERS = \x7bfloat('nan'), float('inf'), float('-inf')\x7d`
(line 17).  CPython set membership compares the probe against stored elements
by identity and then by `==`; the probe is the float freshly returned by
`float(bytes)`, a new object distinct from the stored ones, so only `==`
matters — and `nan == nan` is False. -/
def inINVALID_NUMBERS (x : PFloat) : Bool :=
  pyEqB x .nan || pyEqB x .inf || pyEqB x .neginf

/-- Numeric value of a list of decimal digit characters. -/
def digitsVal (l : List Char) : Nat :=
  l.foldl (fun n c => 10 * n + (c.toNat - 48)) 0

/-- Unsigned part of the Python `float()` grammar: the special tokens
nan / inf / infinity, or decimal digits with an optional fraction.
This models the builtin `float(timeout)` call (line 498) on the byte
strings analysed in this development. -/
def parseUnsigned : List Char → Option PFloat
  | ['n', 'a', 'n'] => some .nan
  | ['i', 'n', 'f'] => some .inf
  | ['i', 'n', 'f', 'i', 'n', 'i', 't', 'y'] => some .inf
  | l =>
    let intPart := l.takeWhile Char.isDigit
    let rest := l.dropWhile Char.isDigit
    match rest with
    | [] => if intPart.isEmpty then none else some (.finite (digitsVal intPart))
    | ('.' :: frac) =>
      if frac.all Char.isDigit ∧ ¬(intPart.isEmpty ∧ frac.isEmpty) then
        some (.finite ((digitsVal intPart : ℚ)
          + (digitsVal frac : ℚ) / (10 : ℚ) ^ frac.length))
      else none
    | _ => none

/-- Model of the Python builtin `float()` applied to the timeout argument:
an optional sign followed by the unsigned grammar above. -/
def parsePyFloat (s : String) : Option PFloat :=
  match s.toList with
  | ('-' :: rest) => (parseUnsigned rest).map PFloat.neg
  | ('+' :: rest) => parseUnsigned rest
  | l => parseUnsigned l

/-- Exceptions raised by the `Lock` engine (lines 28-37 of the source),
plus the RuntimeError raised by `Lock._invalid` for reuse after sweep. -/
inductive LockErr where
  | alreadyWaiting
  | invalidReentry
  | notHeld
  | invalidLock
deriving DecidableEq

/-- The per-key reentrant readers-writer lock (class `Lock`, lines 40-173).
`readers` embeds the `defaultdict(int)` as an insertion-ordered association
list (a key is present iff it is in the dict); the two waiting sets are
duplicate-free lists whose head models the element `set.pop()` removes. -/
structure Lock where
  waiting_readers : List String
  waiting_writers : List String
  readers : List (String × Int)
  writer : Option String
  writer_reentrancy_level : Int
  invalid : Bool
deriving DecidableEq

/-- Dict lookup in the `readers` association list. -/
def rdLookup : List (String × Int) → String → Option Int
  | [], _ => none
  | p :: ps, c => if p.1 = c then some p.2 else rdLookup ps c

/-- Dict store: update an existing key in place, else append (CPython
dicts preserve insertion order). -/
def rdSet : List (String × Int) → String → Int → List (String × Int)
  | [], c, v => [(c, v)]
  | p :: ps, c, v => if p.1 = c then (c, v) :: ps else p :: rdSet ps c v

/-- Dict `del`: remove the entry for a key. -/
def rdErase : List (String × Int) → String → List (String × Int)
  | [], _ => []
  | p :: ps, c => if p.1 = c then ps else p :: rdErase ps c

/-- Dict membership `client_id in self.readers`. -/
def rdMem (m : List (String × Int)) (c : String) : Bool :=
  (rdLookup m c).isSome

/-- `self.readers[client_id] += 1` on the `defaultdict(int)`: a missing key
reads as 0. -/
def rdIncr (m : List (String × Int)) (c : String) : List (String × Int) :=
  rdSet m c ((rdLookup m c).getD 0 + 1)

/-- Python `set.add`: insert if not already a member. -/
def setAdd (l : List String) (c : String) : List String :=
  if c ∈ l then l else l ++ [c]

/-- Embeds `Lock._check_cleanup` (lines 70-76): when no readers, waiters or
writer remain, the instance marks itself invalid (the enclosing server then
drops it from `active_locks`; see `Server.put_lock`). -/
def Lock.check_cleanup (l : Lock) : Lock :=
  if l.readers = [] ∧ l.waiting_readers = [] ∧ l.waiting_writers = [] ∧
      l.writer = none then
    { l with invalid := true }
  else l

/-- Embeds `Lock.acquire` (lines 78-122).  The result carries the returned
bool and the mutated lock; errors carry the lock as left by the `finally`
clause.  The source's `try/finally` applies `_check_cleanup` on every exit. -/
def Lock.acquire (l : Lock) (c : String) (read_only : Bool) :
    Except (LockErr × Lock) (Bool × Lock) :=
  if l.invalid then .error (.invalidLock, l) else
  if c ∈ l.waiting_readers ∨ c ∈ l.waiting_writers then
    .error (.alreadyWaiting, Lock.check_cleanup l)
  else if read_only then
    if l.writer.isSome then
      -- Reader must wait if there is a writer:
      .ok (false, Lock.check_cleanup
        { l with waiting_readers := setAdd l.waiting_readers c })
    else if l.waiting_writers ≠ [] then
      -- Reader can re-enter if there are waiting writers, but must wait
      -- to acquire initially:
      if rdMem l.readers c then
        .ok (true, Lock.check_cleanup { l with readers := rdIncr l.readers c })
      else
        .ok (false, Lock.check_cleanup
          { l with waiting_readers := setAdd l.waiting_readers c })
    else
      -- Acquire or re-enter the lock:
      .ok (true, Lock.check_cleanup { l with readers := rdIncr l.readers c })
  else
    if rdMem l.readers c then
      .error (.invalidReentry, Lock.check_cleanup l)
    else if (l.writer = none ∨ l.writer = some c) ∧ l.readers = [] then
      .ok (true, Lock.check_cleanup
        { l with writer := some c,
                 writer_reentrancy_level := l.writer_reentrancy_level + 1 })
    else
      .ok (false, Lock.check_cleanup
        { l with waiting_writers := setAdd l.waiting_writers c })

/-- Embeds `Lock.release` (lines 124-163), preserving the source's control
flow exactly: in the writer branch the waiting-writer and waiting-reader
grant checks sit OUTSIDE the `if level == 0 or fully` test, just as in the
source.  Success carries the list of newly granted clients. -/
def Lock.release (l : Lock) (c : String) (fully : Bool) :
    Except (LockErr × Lock) (List String × Lock) :=
  if l.invalid then .error (.invalidLock, l) else
  if rdMem l.readers c then
    let r1 := rdSet l.readers c ((rdLookup l.readers c).getD 0 - 1)
    let r2 := if (rdLookup r1 c).getD 0 = 0 ∨ fully then rdErase r1 c else r1
    let l1 := { l with readers := r2 }
    -- Is the lock now available for a writer?
    match l1.waiting_writers, l1.readers with
    | w :: ws, [] =>
      .ok ([w], Lock.check_cleanup
        { l1 with waiting_writers := ws, writer := some w,
                  writer_reentrancy_level := 1 })
    | _, _ => .ok ([], Lock.check_cleanup l1)
  else if l.writer = some c then
    let lev := l.writer_reentrancy_level - 1
    let l1 := if lev = 0 ∨ fully then
                { l with writer := none, writer_reentrancy_level := 0 }
              else
                { l with writer_reentrancy_level := lev }
    -- Is there a waiting writer to give the lock to?
    match l1.waiting_writers with
    | w :: ws =>
      .ok ([w], Lock.check_cleanup
        { l1 with waiting_writers := ws, writer := some w,
                  writer_reentrancy_level := 1 })
    | [] =>
      -- Are there waiting readers to give the lock to?
      if l1.waiting_readers ≠ [] then
        .ok (l1.waiting_readers, Lock.check_cleanup
          { l1 with
              readers := l1.waiting_readers.foldl (fun m rc => rdIncr m rc)
                l1.readers,
              waiting_readers := [] })
      else
        .ok ([], Lock.check_cleanup l1)
  else
    .error (.notHeld, Lock.check_cleanup l)

/-- Embeds `Lock.give_up` (lines 165-173). -/
def Lock.give_up (l : Lock) (c : String) : Except (LockErr × Lock) Lock :=
  if l.invalid then .error (.invalidLock, l) else
  if c ∈ l.waiting_readers then
    .ok (Lock.check_cleanup { l with waiting_readers := l.waiting_readers.erase c })
  else if c ∈ l.waiting_writers then
    .ok (Lock.check_cleanup { l with waiting_writers := l.waiting_writers.erase c })
  else
    .ok (Lock.check_cleanup l)

/-- States of a lock request (enum `rs`, lines 176-189). -/
inductive rs where
  | INITIAL
  | PRESENT_WAITING
  | ABSENT_WAITING
  | ABSENT_HELD
  | HELD
deriving DecidableEq

/-- Reply payloads sent on the wire; each constructor stands for the exact
byte string constant of lines 19-25 of the source (`ok`, `retry`, `hello`
and the ERR_* constants). -/
inductive Msg where
  | ok
  | retry
  | hello
  | err_not_held
  | err_invalid_reentry
  | err_concurrent
  | err_invalid_command
  | err_wrong_num_args
  | err_timeout_invalid
  | err_read_only_wrong
deriving DecidableEq

/-- Python exceptions that escape a handler and would abort the event loop:
the failed `assert` of line 267, `ValueError` from `list.remove` or from an
impossible request state, `KeyError` from `del` on a missing key,
`AttributeError` from reading `.due_at` of `None`, and uncaught `Lock`
exceptions. -/
inductive PyErr where
  | assertion_error
  | value_error
  | key_error
  | attr_error
  | lock_error (e : LockErr)
deriving DecidableEq

/-- The callback a Task wraps.  In the source a Task closes over a bound
method of a LockRequest; the three possible callbacks are
`LockRequest.advise_retry`, `LockRequest.give_up` and
`LockRequest.release(fully=True)`, identified here by the request's
(key, client_id) slot. -/
inductive TaskAction where
  | advise_retry (key client : String)
  | give_up_cb (key client : String)
  | timeout_release (key client : String)
deriving DecidableEq

/-- Class `Task` (lines 356-381): a deferred call with an absolute due
time.  `tid` models CPython object identity (used by `list.remove`). -/
structure Task where
  tid : Nat
  due_at : PFloat
  action : TaskAction
deriving DecidableEq

/-- MAX_RESPONSE_TIME = 1 second (line 14). -/
def MAX_RESPONSE_TIME : ℚ := 1

/-- MAX_ABSENT_TIME = 1 second (line 15). -/
def MAX_ABSENT_TIME : ℚ := 1

/-- Class `LockRequest` (lines 192-353).  Fields initialised to `None` in
`__init__` are Options.  The task-handle fields store the Task value, as the
source stores the Task object itself. -/
structure Request where
  key : String
  client_id : String
  routing_id : Option String
  timeout : Option PFloat
  read_only : Option Bool
  state : rs
  advise_retry_task : Option Task
  give_up_task : Option Task
  timeout_task : Option Task
deriving DecidableEq

/-- `LockRequest.__init__` (lines 196-206). -/
def mk_request (k c : String) : Request :=
  ⟨k, c, none, none, none, rs.INITIAL, none, none, none⟩

/-- The mutable state of `ZMQLockServer` (lines 400-416) together with the
transport: `sent` records the replies emitted so far in order, `now` is the
value the monotonic clock returns during the current handler, and `next_tid`
supplies fresh Task identities. -/
structure Server where
  active_locks : List (String × Lock)
  active_requests : List ((String × String) × Request)
  tasks : List Task
  sent : List (String × Msg)
  next_tid : Nat
  now : ℚ
  stopping : Bool
deriving DecidableEq

/-- `ZMQLockServer.send` (lines 488-490): emit `[routing_id, b'', message]`. -/
def Server.send (s : Server) (rid : String) (m : Msg) : Server :=
  { s with sent := s.sent ++ [(rid, m)] }

/-- Lookup in `server.active_locks`. -/
def lkFind : List (String × Lock) → String → Option Lock
  | [], _ => none
  | p :: ps, k => if p.1 = k then some p.2 else lkFind ps k

/-- Store into `server.active_locks` (update in place or append). -/
def lkSet : List (String × Lock) → String → Lock → List (String × Lock)
  | [], k, l => [(k, l)]
  | p :: ps, k, l => if p.1 = k then (k, l) :: ps else p :: lkSet ps k l

/-- `del server.active_locks[key]`. -/
def lkErase : List (String × Lock) → String → List (String × Lock)
  | [], _ => []
  | p :: ps, k => if p.1 = k then ps else p :: lkErase ps k

/-- Lookup in `server.active_requests` by the (key, client_id) slot. -/
def rqFind : List ((String × String) × Request) → String → String → Option Request
  | [], _, _ => none
  | p :: ps, k, c => if p.1 = (k, c) then some p.2 else rqFind ps k c

/-- Store into `server.active_requests`. -/
def rqSet : List ((String × String) × Request) → String → String → Request →
    List ((String × String) × Request)
  | [], k, c, r => [((k, c), r)]
  | p :: ps, k, c, r => if p.1 = (k, c) then ((k, c), r) :: ps else p :: rqSet ps k c r

/-- `del server.active_requests[key, client_id]`. -/
def rqErase : List ((String × String) × Request) → String → String →
    List ((String × String) × Request)
  | [], _, _ => []
  | p :: ps, k, c => if p.1 = (k, c) then ps else p :: rqErase ps k c

/-- `Lock.instance` (lines 54-63): return the tracked lock for the key, or
create a fresh one and track it. -/
def Lock.instance_of (s : Server) (k : String) : Lock × Server :=
  match lkFind s.active_locks k with
  | some l => (l, s)
  | none =>
    let l : Lock := ⟨[], [], [], none, 0, false⟩
    (l, { s with active_locks := lkSet s.active_locks k l })

/-- Write a lock back after an operation.  In the source the table entry
and the mutated object are the same; `_check_cleanup` deletes the entry at
the moment it sets `invalid`, so an invalid result means the entry is gone. -/
def Server.put_lock (s : Server) (k : String) (l : Lock) : Server :=
  if l.invalid then { s with active_locks := lkErase s.active_locks k }
  else { s with active_locks := lkSet s.active_locks k l }

/-- `LockRequest.instance` (lines 208-217). -/
def Request.instance_of (s : Server) (k c : String) : Request × Server :=
  match rqFind s.active_requests k c with
  | some r => (r, s)
  | none =>
    let r := mk_request k c
    (r, { s with active_requests := rqSet s.active_requests k c r })

/-- Write a request's mutated attributes back to `active_requests`. -/
def Server.put_request (s : Server) (r : Request) : Server :=
  { s with active_requests := rqSet s.active_requests r.key r.client_id r }

/-- `TaskQueue.add` (lines 388-390): `insort` keeps the list sorted with the
soonest-due task at the END.  `Task` defines only `__gt__` (due sooner =
greater), so `insort`'s `x < a[mid]` probe falls back to
`a[mid].__gt__(x)`, i.e. `a[mid].due_at < x.due_at`. -/
def TaskQueue.add : List Task → Task → List Task
  | [], t => [t]
  | x :: xs, t =>
    if PFloat.ltB x.due_at t.due_at then t :: x :: xs else x :: TaskQueue.add xs t

/-- `TaskQueue.cancel` (lines 396-397), i.e. `list.remove(task)`: remove the
first element equal to the task (object identity, modelled by `tid`);
`none` models the ValueError CPython raises when the task is absent. -/
def TaskQueue.cancel : List Task → Task → Option (List Task)
  | [], _ => none
  | x :: xs, t =>
    if x.tid = t.tid then some xs
    else (TaskQueue.cancel xs t).map (fun r => x :: r)

/-- `Task.__init__` (lines 356-366) combined with `server.tasks.add` as done
by every `schedule_*` method: `due_at = monotonic() + due_in`. -/
def Server.new_task (s : Server) (due_in : PFloat) (a : TaskAction) : Task × Server :=
  let t : Task := ⟨s.next_tid, PFloat.add (.finite s.now) due_in, a⟩
  (t, { s with next_tid := s.next_tid + 1, tasks := TaskQueue.add s.tasks t })

/-- `LockRequest.schedule_advise_retry` (lines 318-320). -/
def Request.schedule_advise_retry (s : Server) (r : Request) : Server × Request :=
  let (t, s1) := s.new_task (.finite MAX_RESPONSE_TIME) (.advise_retry r.key r.client_id)
  (s1, { r with advise_retry_task := some t })

/-- `LockRequest.cancel_advise_retry` (lines 322-323). -/
def Request.cancel_advise_retry (s : Server) (r : Request) : Option PyErr × Server :=
  match r.advise_retry_task with
  | none => (some .value_error, s)
  | some t =>
    match TaskQueue.cancel s.tasks t with
    | none => (some .value_error, s)
    | some q => (none, { s with tasks := q })

/-- `LockRequest.schedule_give_up` (lines 331-333). -/
def Request.schedule_give_up (s : Server) (r : Request) : Server × Request :=
  let (t, s1) := s.new_task (.finite MAX_ABSENT_TIME) (.give_up_cb r.key r.client_id)
  (s1, { r with give_up_task := some t })

/-- `LockRequest.cancel_give_up` (lines 335-336). -/
def Request.cancel_give_up (s : Server) (r : Request) : Option PyErr × Server :=
  match r.give_up_task with
  | none => (some .value_error, s)
  | some t =>
    match TaskQueue.cancel s.tasks t with
    | none => (some .value_error, s)
    | some q => (none, { s with tasks := q })

/-- `LockRequest.schedule_timeout_release` (lines 345-347). -/
def Request.schedule_timeout_release (s : Server) (r : Request) (timeout : PFloat) :
    Server × Request :=
  let (t, s1) := s.new_task timeout (.timeout_release r.key r.client_id)
  (s1, { r with timeout_task := some t })

/-- `LockRequest.cancel_timeout_release` (lines 349-350). -/
def Request.cancel_timeout_release (s : Server) (r : Request) : Option PyErr × Server :=
  match r.timeout_task with
  | none => (some .value_error, s)
  | some t =>
    match TaskQueue.cancel s.tasks t with
    | none => (some .value_error, s)
    | some q => (none, { s with tasks := q })

/-- `LockRequest._cleanup` (lines 352-353): `del` of the request's slot;
KeyError if the slot is not tracked. -/
def Request.cleanup_fn (s : Server) (r : Request) : Option PyErr × Server :=
  if (rqFind s.active_requests r.key r.client_id).isSome then
    (none, { s with active_requests := rqErase s.active_requests r.key r.client_id })
  else (some .key_error, s)

/-- `LockRequest.on_triggered_acquisition` (lines 219-232). -/
def Request.on_triggered_acquisition (s : Server) (r : Request) : Option PyErr × Server :=
  match r.state with
  | rs.PRESENT_WAITING =>
    let s1 := s.send (r.routing_id.getD "") .ok
    let (s2, r1) := Request.schedule_timeout_release s1 r (r.timeout.getD .nan)
    match Request.cancel_advise_retry s2 r1 with
    | (some e, s3) => (some e, s3)
    | (none, s3) => (none, s3.put_request { r1 with state := rs.HELD })
  | rs.ABSENT_WAITING =>
    match Request.cancel_give_up s r with
    | (some e, s1) => (some e, s1)
    | (none, s1) =>
      let (s2, r1) := Request.schedule_timeout_release s1 r (.finite MAX_ABSENT_TIME)
      (none, s2.put_request { r1 with state := rs.ABSENT_HELD })
  | _ => (some .value_error, s)

/-- The `for client_id in acquirers` loop of `LockRequest.release`
(lines 253-255): look each newly granted client's request up and fire its
triggered-acquisition event. -/
def trigger_all (k : String) : List String → Server → Option PyErr × Server
  | [], s => (none, s)
  | c :: cs, s =>
    let (r, s1) := Request.instance_of s k c
    match Request.on_triggered_acquisition s1 r with
    | (some e, s2) => (some e, s2)
    | (none, s2) => trigger_all k cs s2

/-- `LockRequest.release` (lines 247-256): release the lock, process the
triggered acquisitions, then `_cleanup`. -/
def Request.release_fn (s : Server) (r : Request) (fully : Bool) : Option PyErr × Server :=
  let (lk, s1) := Lock.instance_of s r.key
  match Lock.release lk r.client_id fully with
  | .error (e, lk') => (some (.lock_error e), s1.put_lock r.key lk')
  | .ok (acq, lk') =>
    let s2 := s1.put_lock r.key lk'
    match trigger_all r.key acq s2 with
    | (some e, s3) => (some e, s3)
    | (none, s3) => Request.cleanup_fn s3 r

/-- `LockRequest.give_up` (lines 338-343). -/
def Request.give_up_fn (s : Server) (r : Request) (cleanup : Bool) : Option PyErr × Server :=
  let (lk, s1) := Lock.instance_of s r.key
  match Lock.give_up lk r.client_id with
  | .error (e, lk') => (some (.lock_error e), s1.put_lock r.key lk')
  | .ok lk' =>
    let s2 := s1.put_lock r.key lk'
    if cleanup then Request.cleanup_fn s2 r else (none, s2)

/-- `LockRequest._initial_acquisition` (lines 234-245). -/
def Request.initial_acquisition (s : Server) (r : Request) (rid : String)
    (timeout : PFloat) (read_only : Bool) : Option PyErr × Server :=
  let r1 := { r with routing_id := some rid, timeout := some timeout,
                     read_only := some read_only }
  let s0 := s.put_request r1
  let (lk, s1) := Lock.instance_of s0 r1.key
  match Lock.acquire lk r1.client_id read_only with
  | .error (e, lk') => (some (.lock_error e), s1.put_lock r1.key lk')
  | .ok (true, lk') =>
    let s2 := (s1.put_lock r1.key lk').send rid .ok
    let (s3, r2) := Request.schedule_timeout_release s2 r1 timeout
    (none, s3.put_request { r2 with state := rs.HELD })
  | .ok (false, lk') =>
    let s2 := s1.put_lock r1.key lk'
    let (s3, r2) := Request.schedule_advise_retry s2 r1
    (none, s3.put_request { r2 with state := rs.PRESENT_WAITING })

/-- `LockRequest.acquire_request` (lines 258-298).  In the HELD branch the
source asserts that the re-entry succeeds; when `lock.acquire` returns
False the AssertionError escapes (only InvalidReentry is caught). -/
def Request.acquire_request (s : Server) (r : Request) (rid : String)
    (timeout : PFloat) (read_only : Bool) : Option PyErr × Server :=
  match r.state with
  | rs.INITIAL => Request.initial_acquisition s r rid timeout read_only
  | rs.HELD =>
    let (lk, s1) := Lock.instance_of s r.key
    match Lock.acquire lk r.client_id read_only with
    | .error (.invalidReentry, lk') =>
      (none, (s1.put_lock r.key lk').send rid .err_invalid_reentry)
    | .error (e, lk') => (some (.lock_error e), s1.put_lock r.key lk')
    | .ok (false, lk') => (some .assertion_error, s1.put_lock r.key lk')
    | .ok (true, lk') =>
      let s2 := (s1.put_lock r.key lk').send rid .ok
      -- Extend the timeout if necessary:
      match r.timeout_task with
      | none => (some .attr_error, s2)
      | some tk =>
        if PFloat.gtB (PFloat.add (.finite s2.now) timeout) tk.due_at then
          match TaskQueue.cancel s2.tasks tk with
          | none => (some .value_error, s2)
          | some q =>
            let s3 := { s2 with tasks := q }
            let (s4, r1) := Request.schedule_timeout_release s3 r timeout
            (none, s4.put_request r1)
        else (none, s2)
  | rs.ABSENT_HELD =>
    let s1 := s.send rid .ok
    match Request.cancel_timeout_release s1 r with
    | (some e, s2) => (some e, s2)
    | (none, s2) =>
      let (s3, r1) := Request.schedule_timeout_release s2 r timeout
      (none, s3.put_request { r1 with state := rs.HELD })
  | rs.ABSENT_WAITING =>
    match Request.cancel_give_up s r with
    | (some e, s1) => (some e, s1)
    | (none, s1) =>
      if r.read_only ≠ some read_only then
        -- Client changed its mind; give up and start again:
        match Request.give_up_fn s1 r false with
        | (some e, s2) => (some e, s2)
        | (none, s2) => Request.initial_acquisition s2 r rid timeout read_only
      else
        let r1 := { r with timeout := some timeout, routing_id := some rid }
        let (s2, r2) := Request.schedule_advise_retry s1 r1
        (none, s2.put_request { r2 with state := rs.PRESENT_WAITING })
  | rs.PRESENT_WAITING =>
    -- Client not allowed to make two requests without waiting for a response:
    (none, s.send rid .err_concurrent)

/-- `LockRequest.release_request` (lines 300-316). -/
def Request.release_request (s : Server) (r : Request) (rid : String) :
    Option PyErr × Server :=
  match r.state with
  | rs.HELD =>
    let s1 := s.send rid .ok
    match Request.release_fn s1 r false with
    | (some e, s2) => (some e, s2)
    | (none, s2) => Request.cancel_timeout_release s2 r
  | rs.ABSENT_HELD =>
    -- A lie, but the client did not follow protocol, so no lock for you:
    let s1 := s.send rid .err_not_held
    match Request.release_fn s1 r false with
    | (some e, s2) => (some e, s2)
    | (none, s2) => Request.cancel_timeout_release s2 r
  | rs.PRESENT_WAITING => (none, s.send rid .err_concurrent)
  | rs.INITIAL => (none, s.send rid .err_not_held)
  | rs.ABSENT_WAITING => (none, s.send rid .err_not_held)

/-- `ZMQLockServer.acquire_request` (lines 492-513): argument validation
followed by dispatch into the request state machine. -/
def ZMQLockServer.acquire_request (s : Server) (rid : String) (args : List String) :
    Option PyErr × Server :=
  if ¬ (3 ≤ args.length ∧ args.length ≤ 4) then
    (none, s.send rid .err_wrong_num_args)
  else
    match args with
    | key :: client_id :: timeout_s :: rest =>
      match parsePyFloat timeout_s with
      | none => (none, s.send rid .err_timeout_invalid)
      | some timeout =>
        if inINVALID_NUMBERS timeout then (none, s.send rid .err_timeout_invalid)
        else
          match rest with
          | [arg4] =>
            if arg4 ≠ "read_only" then (none, s.send rid .err_read_only_wrong)
            else
              let (r, s1) := Request.instance_of s key client_id
              Request.acquire_request s1 r rid timeout true
          | _ =>
            let (r, s1) := Request.instance_of s key client_id
            Request.acquire_request s1 r rid timeout false
    | _ => (none, s)

/-- `ZMQLockServer.release_request` (lines 515-521). -/
def ZMQLockServer.release_request (s : Server) (rid : String) (args : List String) :
    Option PyErr × Server :=
  match args with
  | [key, client_id] =>
    let (r, s1) := Request.instance_of s key client_id
    Request.release_request s1 r rid
  | _ => (none, s.send rid .err_wrong_num_args)

/-- One received multipart message, dispatched as in the body of
`ZMQLockServer.run` (lines 439-455).  Malformed frames are silently
dropped; the loop-breaking effect of `stop` is outside this model. -/
def handle_frame (s : Server) (frame : List String) : Option PyErr × Server :=
  match frame with
  | routing_id :: delim :: command :: args =>
    if delim ≠ "" then (none, s)
    else if command = "hello" then (none, s.send routing_id .hello)
    else if command = "acquire" then ZMQLockServer.acquire_request s routing_id args
    else if command = "release" then ZMQLockServer.release_request s routing_id args
    else if command = "stop" ∧ s.stopping = true then (none, s.send routing_id .ok)
    else (none, s.send routing_id .err_invalid_command)
  | _ => (none, s)

/-- Invoke a due task's callback (`task()` at line 459).  The source calls
the bound method the Task closed over; in every reachable firing the bound
request is the one tracked under the task's slot, which is how the callback
is located here. -/
def run_task (s : Server) (t : Task) : Option PyErr × Server :=
  match t.action with
  | .timeout_release k c =>
    match rqFind s.active_requests k c with
    | some r => Request.release_fn s r true
    | none => (some .key_error, s)
  | .advise_retry k c =>
    -- `LockRequest.advise_retry` (lines 325-329):
    match rqFind s.active_requests k c with
    | some r =>
      let s1 := s.send (r.routing_id.getD "") .retry
      let (s2, r1) := Request.schedule_give_up s1 r
      (none, s2.put_request { r1 with state := rs.ABSENT_WAITING })
    | none => (some .key_error, s)
  | .give_up_cb k c =>
    match rqFind s.active_requests k c with
    | some r => Request.give_up_fn s r true
    | none => (some .key_error, s)

/-- One idle iteration of the event loop (lines 430-459) in which the poll
times out: the soonest due task — the LAST list element, as popped by
`self.tasks.pop()` — is removed and invoked. -/
def run_idle_step (s : Server) : Option PyErr × Server :=
  match s.tasks.getLast? with
  | none => (none, s)
  | some t => run_task { s with tasks := s.tasks.dropLast } t

/-! ## Helper lemmas -/

theorem rdLookup_append_of_none (a b : List (String × Int)) (c : String)
    (h : rdLookup a c = none) : rdLookup (a ++ b) c = rdLookup b c := by
  induction a with
  | nil => rfl
  | cons p ps ih =>
    simp only [List.cons_append, rdLookup] at h ⊢
    by_cases hp : p.1 = c
    · simp [hp] at h
    · rw [if_neg hp] at h ⊢
      exact ih h

theorem rdSet_absent (m : List (String × Int)) (c : String) (v : Int)
    (h : rdLookup m c = none) : rdSet m c v = m ++ [(c, v)] := by
  induction m with
  | nil => rfl
  | cons p ps ih =>
    by_cases hp : p.1 = c
    · simp [rdLookup, hp] at h
    · simp only [rdLookup, hp, if_false] at h
      simp [rdSet, hp, ih h]

theorem foldl_rdIncr_fresh (ws : List String) (acc : List (String × Int))
    (habs : ∀ c ∈ ws, rdLookup acc c = none) (hnd : ws.Nodup) :
    ws.foldl (fun m rc => rdIncr m rc) acc = acc ++ ws.map (fun rc => (rc, 1)) := by
  induction ws generalizing acc with
  | nil => simp
  | cons c cs ih =>
    have hc : rdLookup acc c = none := habs c (by simp)
    have h1 : rdIncr acc c = acc ++ [(c, 1)] := by
      simp only [rdIncr, hc, Option.getD_none, zero_add]
      exact rdSet_absent acc c 1 hc
    rw [List.foldl_cons, h1,
      ih (acc ++ [(c, 1)]) ?_ (List.nodup_cons.mp hnd).2]
    · simp
    · intro c' hc'
      have hne : c ≠ c' := fun h => (List.nodup_cons.mp hnd).1 (h ▸ hc')
      rw [rdLookup_append_of_none _ _ _ (habs c' (List.mem_cons_of_mem _ hc'))]
      simp [rdLookup, hne]

/-! ## Claims -/

/-- C1: the claim states that a client holding a lock with reentry level N
can call `release(fully=false)` N times with every call succeeding, for
every content of the waiting sets.  The code contradicts it (and its own
docstring, which promises to grant waiters only when the release "makes the
lock available"): with writer `c1` at reentry level 2 and a waiting writer
`c2`, the first release already hands the lock to `c2` — the waiting-writer
check of line 148 is not nested under the full-release test of line 144 —
so `c1`'s second release raises NotHeld. -/
theorem C1_second_release_raises_not_held :
    Lock.release ⟨[], ["c2"], [], some "c1", 2, false⟩ "c1" false =
      .ok (["c2"], ⟨[], [], [], some "c2", 1, false⟩) ∧
    Lock.release ⟨[], [], [], some "c2", 1, false⟩ "c1" false =
      .error (.notHeld, ⟨[], [], [], some "c2", 1, false⟩) := by
  constructor <;> rfl

/-- C2: the claim states that after every Lock operation at most one of
"writer set" and "readers non-empty" holds.  The code violates it: with
writer `c1` at reentry level 2 and waiting reader `c2`, a single release by
`c1` keeps `c1` installed as writer (level 1) while granting the lock to
reader `c2`, because the waiting-reader grant of line 153 is not nested
under the full-release test of line 144. -/
theorem C2_writer_and_readers_simultaneously :
    Lock.release ⟨["c2"], [], [], some "c1", 2, false⟩ "c1" false =
      .ok (["c2"], ⟨[], [], [("c2", 1)], some "c1", 1, false⟩) ∧
    (⟨[], [], [("c2", 1)], some "c1", 1, false⟩ : Lock).writer = some "c1" ∧
    (⟨[], [], [("c2", 1)], some "c1", 1, false⟩ : Lock).readers ≠ [] := by
  refine ⟨rfl, rfl, ?_⟩
  decide

/-- C5 counterexample: the claim says cancelling a task that is not in the
queue (fired or never added) is a no-op that leaves the queue unchanged.
In the code `TaskQueue.cancel` is `list.remove`, which raises ValueError
(modelled as `none`) when the task is absent — it neither succeeds nor
returns the queue unchanged. -/
theorem C5_cancel_missing_counterexample :
    TaskQueue.cancel [⟨0, .finite 1, .advise_retry "k" "c1"⟩]
        ⟨1, .finite 2, .advise_retry "k" "c1"⟩ = none ∧
    TaskQueue.cancel [⟨0, .finite 1, .advise_retry "k" "c1"⟩]
        ⟨1, .finite 2, .advise_retry "k" "c1"⟩ ≠
      some [⟨0, .finite 1, .advise_retry "k" "c1"⟩] := by
  constructor <;> decide

/-- C5 (amended): `cancel(task)` removes the first queue entry that is the
given task (object identity, modelled by `tid`) when the task is pending;
cancelling a task that is not in the queue — because it already fired or
was never added — raises ValueError instead of being a no-op. -/
theorem C5_cancel_removes_pending_else_value_error (q : List Task) (t : Task) :
    ((∀ x ∈ q, x.tid ≠ t.tid) → TaskQueue.cancel q t = none) ∧
    (∀ a b, q = a ++ t :: b → (∀ x ∈ a, x.tid ≠ t.tid) →
      TaskQueue.cancel q t = some (a ++ b)) := by
  constructor
  · intro h
    induction q with
    | nil => rfl
    | cons x xs ih =>
      have hx : x.tid ≠ t.tid := h x (by simp)
      simp [TaskQueue.cancel, hx, ih fun y hy => h y (List.mem_cons_of_mem _ hy)]
  · intro a b hq ha
    subst hq
    induction a with
    | nil => simp [TaskQueue.cancel]
    | cons x xs ih =>
      have hx : x.tid ≠ t.tid := ha x (by simp)
      simp [TaskQueue.cancel, hx,
        ih fun y hy => ha y (List.mem_cons_of_mem _ hy)]

/-- C5 witness: a pending task is removed; cancelling on an empty queue
(where the task was never added) raises ValueError. -/
theorem C5_witness :
    TaskQueue.cancel [⟨0, .finite 1, .advise_retry "k" "c1"⟩]
        ⟨0, .finite 1, .advise_retry "k" "c1"⟩ = some [] ∧
    TaskQueue.cancel ([] : List Task) ⟨0, .finite 1, .advise_retry "k" "c1"⟩ = none := by
  constructor
  · exact (C5_cancel_removes_pending_else_value_error _ _).2 [] [] rfl (by simp)
  · exact (C5_cancel_removes_pending_else_value_error _ _).1 (by simp)

/-- C6: when the writer fully gives up the lock (its reentry level reaches
zero, or `fully=true`), then: if writers are waiting, exactly one of them
(the popped element) is installed as writer with reentry level 1 and
`release` returns that singleton; otherwise if readers are waiting, all of
them are granted the lock with reader count 1, the waiting-reader set is
cleared, and `release` returns exactly that set. -/
theorem C6_full_writer_release_grants_waiters (l : Lock) (c : String) (fully : Bool)
    (hinv : l.invalid = false)
    (hw : l.writer = some c)
    (hr : l.readers = [])
    (hnd : l.waiting_readers.Nodup)
    (hfull : l.writer_reentrancy_level = 1 ∨ fully = true) :
    (∀ w ws, l.waiting_writers = w :: ws →
      Lock.release l c fully =
        .ok ([w], { l with waiting_writers := ws, writer := some w,
                           writer_reentrancy_level := 1 })) ∧
    (l.waiting_writers = [] → l.waiting_readers ≠ [] →
      Lock.release l c fully =
        .ok (l.waiting_readers,
          { l with readers := l.waiting_readers.map (fun rc => (rc, 1)),
                   waiting_readers := [], writer := none,
                   writer_reentrancy_level := 0 })) := by
  obtain ⟨wr, ww, rd, w, lev, inv⟩ := l
  simp only at hinv hw hr hnd hfull ⊢
  subst hinv hw hr
  have hcond : lev - 1 = 0 ∨ fully = true := by
    rcases hfull with h | h
    · exact Or.inl (by omega)
    · exact Or.inr h
  constructor
  · intro w' ws hww
    subst hww
    simp [Lock.release, rdMem, rdLookup, hcond, Lock.check_cleanup]
  · intro hww hwr
    subst hww
    simp only [Lock.release, rdMem, rdLookup, Option.isSome_none,
      Bool.false_eq_true, if_false, if_pos rfl, hcond, if_true]
    rw [if_pos hwr, foldl_rdIncr_fresh wr [] (fun c' _ => rfl) hnd]
    have hmap : wr.map (fun rc => (rc, (1 : Int))) ≠ [] := by
      simpa using hwr
    simp [Lock.check_cleanup, hmap]

/-- C6 witness: writer `c1` at level 1 releases; waiting writer `c2` is
installed with level 1 and returned as the singleton grant. -/
theorem C6_witness :
    Lock.release ⟨[], ["c2"], [], some "c1", 1, false⟩ "c1" false =
      .ok (["c2"], ⟨[], [], [], some "c2", 1, false⟩) := by
  have h := (C6_full_writer_release_grants_waiters
      ⟨[], ["c2"], [], some "c1", 1, false⟩ "c1" false rfl rfl rfl (by simp)
      (Or.inl rfl)).1 "c2" [] rfl
  simpa using h

theorem Server.put_lock_tasks (s : Server) (k : String) (l : Lock) :
    (s.put_lock k l).tasks = s.tasks := by
  unfold Server.put_lock; split <;> rfl

theorem Server.put_lock_sent (s : Server) (k : String) (l : Lock) :
    (s.put_lock k l).sent = s.sent := by
  unfold Server.put_lock; split <;> rfl

theorem Server.put_lock_now (s : Server) (k : String) (l : Lock) :
    (s.put_lock k l).now = s.now := by
  unfold Server.put_lock; split <;> rfl

theorem Server.put_lock_next_tid (s : Server) (k : String) (l : Lock) :
    (s.put_lock k l).next_tid = s.next_tid := by
  unfold Server.put_lock; split <;> rfl

theorem Server.put_lock_active_requests (s : Server) (k : String) (l : Lock) :
    (s.put_lock k l).active_requests = s.active_requests := by
  unfold Server.put_lock; split <;> rfl

theorem TaskQueue.cancel_isSome_of_mem (q : List Task) (t : Task) (h : t ∈ q) :
    (TaskQueue.cancel q t).isSome := by
  induction q with
  | nil => simp at h
  | cons x xs ih =>
    by_cases hx : x.tid = t.tid
    · simp [TaskQueue.cancel, hx]
    · rcases List.mem_cons.mp h with h1 | h1
      · exact absurd (by rw [h1]) hx
      · simp [TaskQueue.cancel, hx, Option.isSome_map]
        simpa using ih h1

/-- C3: the claim states that an acquire frame received in state HELD always
runs to completion and replies `ok` or ERR_INVALID_REENTRY, for every
combination of held mode and the requested read_only flag.  The code
contradicts its own `assert` (line 267): when the current WRITER re-requests
with read_only set, `Lock.acquire` adds the writer to `waiting_readers` and
returns False, so the assertion fails and the AssertionError aborts the
handler (and with it the event loop) instead of producing a reply. -/
theorem C3_writer_readonly_reentry_assertion_error :
    (ZMQLockServer.acquire_request
        ⟨[("k", ⟨[], [], [], some "c1", 1, false⟩)],
         [(("k", "c1"),
           ⟨"k", "c1", some "r1", some (.finite 10), some false, rs.HELD,
             none, none, some ⟨0, .finite 10, .timeout_release "k" "c1"⟩⟩)],
         [⟨0, .finite 10, .timeout_release "k" "c1"⟩], [], 1, 0, false⟩
        "r2" ["k", "c1", "10", "read_only"]).1 = some PyErr.assertion_error ∧
    (ZMQLockServer.acquire_request
        ⟨[("k", ⟨[], [], [], some "c1", 1, false⟩)],
         [(("k", "c1"),
           ⟨"k", "c1", some "r1", some (.finite 10), some false, rs.HELD,
             none, none, some ⟨0, .finite 10, .timeout_release "k" "c1"⟩⟩)],
         [⟨0, .finite 10, .timeout_release "k" "c1"⟩], [], 1, 0, false⟩
        "r2" ["k", "c1", "10", "read_only"]).2.sent = [] := by
  constructor <;> decide

/-- C4: the claim states that an acquire frame whose timeout parses as NaN
or ±infinity is answered ERR_TIMEOUT_INVALID with no state created.  The
code intends this — `INVALID_NUMBERS` (line 17) contains `float('nan')` —
but the membership test of line 502 never matches NaN, because CPython set
membership falls back to `==` for a freshly parsed float and `nan == nan`
is False.  At the claim's own failing input the frame is answered `ok` and
a request is created; the infinities, by contrast, are rejected as the
claim says. -/
theorem C4_nan_timeout_not_rejected :
    (handle_frame ⟨[], [], [], [], 0, 0, false⟩
        ["r1", "", "acquire", "k", "c1", "nan"]).1 = none ∧
    (handle_frame ⟨[], [], [], [], 0, 0, false⟩
        ["r1", "", "acquire", "k", "c1", "nan"]).2.sent = [("r1", Msg.ok)] ∧
    (handle_frame ⟨[], [], [], [], 0, 0, false⟩
        ["r1", "", "acquire", "k", "c1", "nan"]).2.active_requests ≠ [] ∧
    parsePyFloat "nan" = some PFloat.nan ∧
    inINVALID_NUMBERS PFloat.nan = false ∧
    (handle_frame ⟨[], [], [], [], 0, 0, false⟩
        ["r1", "", "acquire", "k", "c1", "inf"]).2.sent =
      [("r1", Msg.err_timeout_invalid)] ∧
    (handle_frame ⟨[], [], [], [], 0, 0, false⟩
        ["r1", "", "acquire", "k", "c1", "-inf"]).2.sent =
      [("r1", Msg.err_timeout_invalid)] := by
  refine ⟨?_, ?_, ?_, ?_, ?_, ?_, ?_⟩ <;> decide

/-- C8: in state PRESENT_WAITING, a further acquire and a release for the
same slot are each answered ERR_CONCURRENT, and the server state — request
state, lock membership, pending timers — is unchanged apart from the reply
being recorded. -/
theorem C8_present_waiting_concurrent (s : Server) (r : Request) (rid : String)
    (timeout : PFloat) (read_only : Bool)
    (h : r.state = rs.PRESENT_WAITING) :
    Request.acquire_request s r rid timeout read_only =
      (none, s.send rid .err_concurrent) ∧
    Request.release_request s r rid = (none, s.send rid .err_concurrent) := by
  constructor
  · simp [Request.acquire_request, h]
  · simp [Request.release_request, h]

/-- C8 witness: a concrete PRESENT_WAITING request answered ERR_CONCURRENT
on both a repeated acquire and a release. -/
theorem C8_witness :
    Request.acquire_request ⟨[], [], [], [], 0, 0, false⟩
        ⟨"k", "c1", some "r1", some (.finite 1), some false, rs.PRESENT_WAITING,
          none, none, none⟩ "r2" (.finite 5) false =
      (none, Server.send ⟨[], [], [], [], 0, 0, false⟩ "r2" .err_concurrent) ∧
    Request.release_request ⟨[], [], [], [], 0, 0, false⟩
        ⟨"k", "c1", some "r1", some (.finite 1), some false, rs.PRESENT_WAITING,
          none, none, none⟩ "r2" =
      (none, Server.send ⟨[], [], [], [], 0, 0, false⟩ "r2" .err_concurrent) :=
  C8_present_waiting_concurrent _ _ _ _ _ rfl

/-- C9 counterexample: the claim says a release frame for an untracked
(key, client_id) pair is answered ERR_NOT_HELD while leaving the
active-request table unchanged.  On an empty table the reply is indeed
ERR_NOT_HELD, but the handler reaches the request state machine through
`LockRequest.instance`, which inserts a fresh INITIAL request — and the
INITIAL branch never removes it, so the table is changed. -/
theorem C9_untracked_release_changes_table :
    (ZMQLockServer.release_request ⟨[], [], [], [], 0, 0, false⟩
        "r1" ["k", "c1"]).2.sent = [("r1", Msg.err_not_held)] ∧
    (ZMQLockServer.release_request ⟨[], [], [], [], 0, 0, false⟩
        "r1" ["k", "c1"]).2.active_requests =
      [(("k", "c1"), mk_request "k" "c1")] ∧
    (ZMQLockServer.release_request ⟨[], [], [], [], 0, 0, false⟩
        "r1" ["k", "c1"]).2.active_requests ≠ [] := by
  refine ⟨?_, ?_, ?_⟩ <;> decide

/-- C9 (amended): a release frame for an untracked (key, client_id) pair is
answered ERR_NOT_HELD, but it does not leave the active-request table
unchanged: the handler inserts a LockRequest in state INITIAL for that pair,
which remains tracked after the reply. -/
theorem C9_release_untracked_inserts_initial (s : Server) (rid k c : String)
    (h : rqFind s.active_requests k c = none) :
    ZMQLockServer.release_request s rid [k, c] =
      (none, Server.send
        { s with active_requests := rqSet s.active_requests k c (mk_request k c) }
        rid .err_not_held) := by
  simp [ZMQLockServer.release_request, Request.instance_of, h,
    Request.release_request, mk_request]

/-- C9 witness: the amended behaviour at a concrete untracked slot. -/
theorem C9_witness :
    ZMQLockServer.release_request ⟨[], [], [], [], 0, 0, false⟩ "r1" ["k", "c1"] =
      (none, ⟨[], [(("k", "c1"), mk_request "k" "c1")], [],
        [("r1", Msg.err_not_held)], 0, 0, false⟩) := by
  have h := C9_release_untracked_inserts_initial ⟨[], [], [], [], 0, 0, false⟩
    "r1" "k" "c1" rfl
  simpa [Server.send, rqSet] using h

/-- C7: a successful reentry acquire in state HELD replies `ok` and cancels
and replaces the pending lease task precisely when the new deadline
`monotonic() + timeout` is strictly later than the pending task's due time;
when the new deadline is equal or earlier the task queue is left unchanged,
so the lease is never shortened by reentry. -/
theorem C7_reentry_extends_lease_iff_strictly_later (s : Server) (r : Request)
    (rid : String) (t : PFloat) (ro : Bool) (lk lk' : Lock) (tk : Task)
    (hstate : r.state = rs.HELD)
    (hlk : lkFind s.active_locks r.key = some lk)
    (hacq : Lock.acquire lk r.client_id ro = .ok (true, lk'))
    (htk : r.timeout_task = some tk)
    (hin : tk ∈ s.tasks) :
    (Request.acquire_request s r rid t ro).1 = none ∧
    (Request.acquire_request s r rid t ro).2.sent = s.sent ++ [(rid, Msg.ok)] ∧
    (PFloat.gtB (PFloat.add (.finite s.now) t) tk.due_at = false →
      (Request.acquire_request s r rid t ro).2.tasks = s.tasks) ∧
    (PFloat.gtB (PFloat.add (.finite s.now) t) tk.due_at = true →
      ∃ q, TaskQueue.cancel s.tasks tk = some q ∧
        (Request.acquire_request s r rid t ro).2.tasks =
          TaskQueue.add q ⟨s.next_tid, PFloat.add (.finite s.now) t,
            .timeout_release r.key r.client_id⟩) := by
  obtain ⟨q, hq⟩ := Option.isSome_iff_exists.mp
    (TaskQueue.cancel_isSome_of_mem s.tasks tk hin)
  by_cases hgt : PFloat.gtB (PFloat.add (.finite s.now) t) tk.due_at = true
  · refine ⟨?_, ?_, ?_, ?_⟩
    · simp [Request.acquire_request, hstate, Lock.instance_of, hlk, hacq, htk,
        Server.send, Server.put_lock_now, Server.put_lock_tasks, hgt, hq,
        Request.schedule_timeout_release, Server.new_task]
    · simp [Request.acquire_request, hstate, Lock.instance_of, hlk, hacq, htk,
        Server.send, Server.put_lock_now, Server.put_lock_tasks,
        Server.put_lock_sent, hgt, hq,
        Request.schedule_timeout_release, Server.new_task, Server.put_request]
    · intro hfalse
      rw [hfalse] at hgt
      simp at hgt
    · intro _
      refine ⟨q, hq, ?_⟩
      simp [Request.acquire_request, hstate, Lock.instance_of, hlk, hacq, htk,
        Server.send, Server.put_lock_now, Server.put_lock_next_tid,
        Server.put_lock_tasks, hgt, hq,
        Request.schedule_timeout_release, Server.new_task, Server.put_request]
  · have hgt' : PFloat.gtB (PFloat.add (.finite s.now) t) tk.due_at = false :=
      Bool.not_eq_true _ ▸ Bool.of_not_eq_true hgt
    refine ⟨?_, ?_, ?_, ?_⟩
    · simp [Request.acquire_request, hstate, Lock.instance_of, hlk, hacq, htk,
        Server.send, Server.put_lock_now, hgt']
    · simp [Request.acquire_request, hstate, Lock.instance_of, hlk, hacq, htk,
        Server.send, Server.put_lock_now, hgt', Server.put_lock_sent]
    · intro _
      simp [Request.acquire_request, hstate, Lock.instance_of, hlk, hacq, htk,
        Server.send, Server.put_lock_now, hgt', Server.put_lock_tasks]
    · intro htrue
      rw [htrue] at hgt'
      simp at hgt'

/-- C7 witness: a HELD writer re-enters with a later deadline (10 versus a
pending due time of 5); the old lease task is cancelled and replaced by the
new one. -/
theorem C7_witness :
    (Request.acquire_request
        ⟨[("k", ⟨[], [], [], some "c1", 1, false⟩)],
         [(("k", "c1"),
           ⟨"k", "c1", some "r1", some (.finite 5), some false, rs.HELD,
             none, none, some ⟨0, .finite 5, .timeout_release "k" "c1"⟩⟩)],
         [⟨0, .finite 5, .timeout_release "k" "c1"⟩], [], 1, 0, false⟩
        ⟨"k", "c1", some "r1", some (.finite 5), some false, rs.HELD,
          none, none, some ⟨0, .finite 5, .timeout_release "k" "c1"⟩⟩
        "r2" (.finite 10) false).2.tasks =
      [⟨1, .finite 10, .timeout_release "k" "c1"⟩] := by
  obtain ⟨-, -, -, h4⟩ := C7_reentry_extends_lease_iff_strictly_later
    ⟨[("k", ⟨[], [], [], some "c1", 1, false⟩)],
     [(("k", "c1"),
       ⟨"k", "c1", some "r1", some (.finite 5), some false, rs.HELD,
         none, none, some ⟨0, .finite 5, .timeout_release "k" "c1"⟩⟩)],
     [⟨0, .finite 5, .timeout_release "k" "c1"⟩], [], 1, 0, false⟩
    ⟨"k", "c1", some "r1", some (.finite 5), some false, rs.HELD,
      none, none, some ⟨0, .finite 5, .timeout_release "k" "c1"⟩⟩
    "r2" (.finite 10) false ⟨[], [], [], some "c1", 1, false⟩
    ⟨[], [], [], some "c1", 2, false⟩ ⟨0, .finite 5, .timeout_release "k" "c1"⟩
    rfl rfl rfl rfl (by decide)
  obtain ⟨q, hq, ht⟩ := h4 (by norm_num [PFloat.gtB, PFloat.ltB, PFloat.add])
  simp only [TaskQueue.cancel, if_pos rfl] at hq
  obtain rfl : ([] : List Task) = q := Option.some.inj hq
  simpa [TaskQueue.add, PFloat.add] using ht

/-- C10: an acquire frame whose timeout parses as a finite negative float is
not rejected as invalid: on a free lock the client is answered `ok` and the
lease task is scheduled with a due time `now + timeout` that already lies in
the past, so on the next idle loop iteration (no frame arriving) the task
fires and the lock is fully released, emptying both tables and the queue. -/
theorem C10_negative_timeout_accepted (now q : ℚ) (ts : String)
    (hp : parsePyFloat ts = some (.finite q)) (hq : q < 0) :
    (handle_frame ⟨[], [], [], [], 0, now, false⟩
        ["r1", "", "acquire", "k", "c1", ts]).1 = none ∧
    (handle_frame ⟨[], [], [], [], 0, now, false⟩
        ["r1", "", "acquire", "k", "c1", ts]).2.sent = [("r1", Msg.ok)] ∧
    (handle_frame ⟨[], [], [], [], 0, now, false⟩
        ["r1", "", "acquire", "k", "c1", ts]).2.tasks =
      [⟨0, .finite (now + q), .timeout_release "k" "c1"⟩] ∧
    PFloat.ltB (.finite (now + q)) (.finite now) = true ∧
    run_idle_step (handle_frame ⟨[], [], [], [], 0, now, false⟩
        ["r1", "", "acquire", "k", "c1", ts]).2 =
      (none, ⟨[], [], [], [("r1", Msg.ok)], 1, now, false⟩) := by
  have h1 : handle_frame ⟨[], [], [], [], 0, now, false⟩
      ["r1", "", "acquire", "k", "c1", ts] =
      (none, ⟨[("k", ⟨[], [], [], some "c1", 1, false⟩)],
        [(("k", "c1"),
          ⟨"k", "c1", some "r1", some (.finite q), some false, rs.HELD,
            none, none, some ⟨0, .finite (now + q), .timeout_release "k" "c1"⟩⟩)],
        [⟨0, .finite (now + q), .timeout_release "k" "c1"⟩],
        [("r1", Msg.ok)], 1, now, false⟩) := by
    simp [handle_frame, ZMQLockServer.acquire_request, hp, inINVALID_NUMBERS,
      pyEqB, Request.instance_of, rqFind, Request.acquire_request,
      Request.initial_acquisition, Server.put_request, rqSet, Lock.instance_of,
      lkFind, lkSet, Lock.acquire, rdMem, rdLookup, rdIncr, rdSet,
      Lock.check_cleanup, Server.put_lock, Server.send,
      Request.schedule_timeout_release, Server.new_task, TaskQueue.add,
      PFloat.add, mk_request]
  refine ⟨by rw [h1], by rw [h1], by rw [h1], ?_, ?_⟩
  · simp only [PFloat.ltB, decide_eq_true_eq]
    linarith
  · rw [h1]
    simp [run_idle_step, run_task, rqFind, Request.release_fn, Lock.instance_of,
      lkFind, Lock.release, rdMem, rdLookup, Lock.check_cleanup, Server.put_lock,
      lkErase, trigger_all, Request.cleanup_fn, rqErase]

/-- C10 witness: the frame with timeout bytes `-5` on a fresh server. -/
theorem C10_witness :
    run_idle_step (handle_frame ⟨[], [], [], [], 0, 0, false⟩
        ["r1", "", "acquire", "k", "c1", "-5"]).2 =
      (none, ⟨[], [], [], [("r1", Msg.ok)], 1, 0, false⟩) :=
  (C10_negative_timeout_accepted 0 (-5) "-5" (by decide) (by decide)).2.2.2.2

end ZLock
